import Mathlib

/-!
Verification of the single-stage rocket sizing calculator
(`rocket-design-calculator-single-stage.py`) against its design spec.

The script is a pure pipeline of closed-form formulas.  We embed it
shallowly:

* `calculate_total_mass`, `find_max_structural_fraction` and the
  sizing/retry control flow of `main` involve only field arithmetic and
  an order test, so they are stated over an arbitrary
  `LinearOrderedField` (instantiated at `ℚ` for executable witnesses and
  at `ℝ` when composed with the transcendental steps).
* `calculate_mass_ratio`, `calculate_rotational_boost` and
  `calculate_orbital_velocity` use `exp`, `cos` and `sqrt`, so they are
  embedded over `ℝ` (exact real arithmetic in place of IEEE doubles).
* Python's `return None` infeasibility sentinel becomes `Option`.
-/

namespace RocketCalc

/-- `calculate_total_mass(m_payload, mass_ratio, structural_fraction)`:
`denominator = 1 - mass_ratio * structural_fraction`; if
`denominator <= 0` the function returns the `None` sentinel, otherwise
the triple `(m0, m_structure, m_fuel)` with
`m0 = mass_ratio * m_payload / denominator`,
`m_structure = structural_fraction * m0`,
`m_fuel = m0 - m_structure - m_payload`. -/
def calculate_total_mass {K : Type} [LinearOrderedField K]
    (m_payload mass_ratio structural_fraction : K) : Option (K × K × K) :=
  let denominator := 1 - mass_ratio * structural_fraction
  if denominator ≤ 0 then
    none
  else
    let m0 := mass_ratio * m_payload / denominator
    let m_structure := structural_fraction * m0
    let m_fuel := m0 - m_structure - m_payload
    some (m0, m_structure, m_fuel)

/-- `find_max_structural_fraction(mass_ratio) = 1 / mass_ratio`. -/
def find_max_structural_fraction {K : Type} [LinearOrderedField K]
    (mass_ratio : K) : K :=
  1 / mass_ratio

/-- Outcome of the sizing step of `main`: either the mass triple
`(m0, m_structure, m_fuel)` together with the effective structural
fraction used and a flag recording whether the automatic adjustment
occurred, or the terminal failure printed as
"Even after adjustment, the structural fraction is too high". -/
inductive SizingOutcome (K : Type) where
  | success (m0 m_structure m_fuel effective_sf : K) (adjusted : Bool)
  | stillInfeasible
  deriving DecidableEq

/-- The sizing control flow of `main` (lines 113-129): call
`calculate_total_mass`; on the `None` sentinel, compute
`find_max_structural_fraction(mass_ratio)`, overwrite
`structural_fraction` with it, call `calculate_total_mass` once more,
and give up if the result is still `None`. -/
def mainSizing {K : Type} [LinearOrderedField K]
    (payload_mass mass_ratio structural_fraction : K) : SizingOutcome K :=
  match calculate_total_mass payload_mass mass_ratio structural_fraction with
  | some (m0, m_structure, m_fuel) =>
      .success m0 m_structure m_fuel structural_fraction false
  | none =>
      let max_structural_fraction := find_max_structural_fraction mass_ratio
      match calculate_total_mass payload_mass mass_ratio max_structural_fraction with
      | some (m0, m_structure, m_fuel) =>
          .success m0 m_structure m_fuel max_structural_fraction true
      | none => .stillInfeasible

/-- `calculate_mass_ratio(delta_v, specific_impulse)`: with `g0 = 9.81`,
`ve = specific_impulse * g0` and `mass_ratio = exp(delta_v / ve)`;
returns the pair `(mass_ratio, ve)`. -/
noncomputable def calculate_mass_ratio (delta_v specific_impulse : ℝ) : ℝ × ℝ :=
  let g0 : ℝ := 9.81
  let ve := specific_impulse * g0
  (Real.exp (delta_v / ve), ve)

/-- `math.radians(x) = x * pi / 180`. -/
noncomputable def radians (deg : ℝ) : ℝ :=
  deg * (Real.pi / 180)

/-- `calculate_rotational_boost(latitude_deg)`: with
`omega = 2 * pi / 86400` and `R_E = 6371000`, returns
`omega * R_E * cos(radians(latitude_deg))`. -/
noncomputable def calculate_rotational_boost (latitude_deg : ℝ) : ℝ :=
  let omega := 2 * Real.pi / 86400
  let R_E : ℝ := 6371000
  omega * R_E * Real.cos (radians latitude_deg)

/-- `calculate_orbital_velocity(orbit_altitude)`: circular orbital speed
`sqrt(G * M / (R_E + orbit_altitude))`. -/
noncomputable def calculate_orbital_velocity (orbit_altitude : ℝ) : ℝ :=
  let G : ℝ := 6.67430e-11
  let M : ℝ := 5.972e24
  let R_E : ℝ := 6371000
  let R := R_E + orbit_altitude
  Real.sqrt (G * M / R)

/-- C1: for `payload_mass > 0`, `mass_ratio ≥ 1` and
`structural_fraction ∈ [0,1)`, `calculate_total_mass` signals
infeasibility (the non-numeric `none` outcome) iff the denominator
`D = 1 - mass_ratio * structural_fraction` is `≤ 0`, and whenever
`D > 0` it returns exactly the triple `(m0, structural_fraction * m0,
m0 - structural_fraction * m0 - payload_mass)` with
`m0 = mass_ratio * payload_mass / D`. -/
theorem C1_total_mass_spec {K : Type} [LinearOrderedField K]
    (p r sf : K) (hp : 0 < p) (hr : 1 ≤ r) (hsf0 : 0 ≤ sf) (hsf1 : sf < 1) :
    (calculate_total_mass p r sf = none ↔ 1 - r * sf ≤ 0) ∧
    (0 < 1 - r * sf →
      calculate_total_mass p r sf =
        some (r * p / (1 - r * sf),
              sf * (r * p / (1 - r * sf)),
              r * p / (1 - r * sf) - sf * (r * p / (1 - r * sf)) - p)) := by
  constructor
  · unfold calculate_total_mass
    by_cases h : 1 - r * sf ≤ 0 <;> simp [h]
  · intro hD
    unfold calculate_total_mass
    simp [not_le.mpr hD]

/-- C1 witness: at `p = 1`, `r = 2`, `sf = 1/20` (all hypotheses hold
concretely and `D = 9/10 > 0`). -/
theorem C1_total_mass_spec_witness :
    (calculate_total_mass (1 : ℚ) 2 (1/20) = none ↔ 1 - 2 * (1/20 : ℚ) ≤ 0) ∧
    (0 < 1 - 2 * (1/20 : ℚ) →
      calculate_total_mass (1 : ℚ) 2 (1/20) =
        some (2 * 1 / (1 - 2 * (1/20)),
              (1/20) * (2 * 1 / (1 - 2 * (1/20))),
              2 * 1 / (1 - 2 * (1/20)) - (1/20) * (2 * 1 / (1 - 2 * (1/20))) - 1)) :=
  C1_total_mass_spec 1 2 (1/20) (by norm_num) (by norm_num) (by norm_num) (by norm_num)

/-- Any `some` result of `calculate_total_mass` satisfies
`m0 = m_structure + m_fuel + m_payload`, because the fuel mass is
defined as the remainder `m0 - m_structure - m_payload`. -/
theorem total_mass_eq_sum {K : Type} [LinearOrderedField K]
    {p r sf m0 ms mf : K}
    (h : calculate_total_mass p r sf = some (m0, ms, mf)) :
    m0 = ms + mf + p := by
  by_cases hD : 1 - r * sf ≤ 0
  · simp [calculate_total_mass, hD] at h
  · simp only [calculate_total_mass, hD, if_false, Option.some.injEq,
      Prod.mk.injEq] at h
    obtain ⟨rfl, rfl, rfl⟩ := h
    ring

/-- Any successful sizing outcome carries a triple produced by
`calculate_total_mass` at the recorded effective structural fraction. -/
theorem mainSizing_success {K : Type} [LinearOrderedField K]
    {p r sf m0 ms mf esf : K} {adj : Bool}
    (h : mainSizing p r sf = SizingOutcome.success m0 ms mf esf adj) :
    calculate_total_mass p r esf = some (m0, ms, mf) := by
  unfold mainSizing at h
  rcases hc : calculate_total_mass p r sf with _ | ⟨a, b, c⟩
  · simp only [hc] at h
    rcases hc2 : calculate_total_mass p r (find_max_structural_fraction r)
      with _ | ⟨a2, b2, c2⟩
    · simp only [hc2] at h
      exact SizingOutcome.noConfusion h
    · simp only [hc2, SizingOutcome.success.injEq] at h
      obtain ⟨rfl, rfl, rfl, rfl, -⟩ := h
      exact hc2
  · simp only [hc, SizingOutcome.success.injEq] at h
    obtain ⟨rfl, rfl, rfl, rfl, -⟩ := h
    exact hc

/-- C2: when the first mass-breakdown call signals infeasibility, the
retry uses exactly `find_max_structural_fraction mass_ratio = 1 /
mass_ratio`; `mainSizing` performs this single retry and, if the
corrected call is also infeasible, ends in the terminal
`stillInfeasible` outcome, producing no sizing result.  (That the retry
happens exactly once is visible in `mainSizing`: the `none` branch of
the second call returns `stillInfeasible` directly.) -/
theorem C2_single_retry {K : Type} [LinearOrderedField K] (p r sf : K)
    (h1 : calculate_total_mass p r sf = none)
    (h2 : calculate_total_mass p r (find_max_structural_fraction r) = none) :
    find_max_structural_fraction r = 1 / r ∧
    mainSizing p r sf = SizingOutcome.stillInfeasible ∧
    ∀ m0 ms mf esf adj,
      mainSizing p r sf ≠ SizingOutcome.success m0 ms mf esf adj := by
  have hmain : mainSizing p r sf = SizingOutcome.stillInfeasible := by
    simp [mainSizing, h1, h2]
  refine ⟨rfl, hmain, ?_⟩
  intro m0 ms mf esf adj hcontra
  rw [hmain] at hcontra
  exact SizingOutcome.noConfusion hcontra

/-- C2 witness: payload 1, mass ratio 2, structural fraction 3/5.  The
first call has `D = -1/5 ≤ 0`, the corrected call (fraction 1/2) has
`D = 0 ≤ 0`, so the run ends `stillInfeasible`. -/
theorem C2_single_retry_witness :
    find_max_structural_fraction (2 : ℚ) = 1 / 2 ∧
    mainSizing (1 : ℚ) 2 (3/5) = SizingOutcome.stillInfeasible ∧
    ∀ m0 ms mf esf adj,
      mainSizing (1 : ℚ) 2 (3/5) ≠ SizingOutcome.success m0 ms mf esf adj :=
  C2_single_retry 1 2 (3/5)
    (by norm_num [calculate_total_mass])
    (by norm_num [calculate_total_mass, find_max_structural_fraction])

/-- C3 counterexample: the recompute step does NOT produce a division by
zero.  At mass ratio 2 the corrected fraction is exactly 1/2 and the
denominator is exactly 0, but `calculate_total_mass` tests `D ≤ 0`
before dividing and returns the `none` sentinel, so the division is
never reached. -/
theorem C3_counterexample :
    1 - 2 * find_max_structural_fraction (2 : ℚ) = 0 ∧
    calculate_total_mass (1 : ℚ) 2 (find_max_structural_fraction 2) = none := by
  constructor
  · norm_num [find_max_structural_fraction]
  · norm_num [calculate_total_mass, find_max_structural_fraction]

/-- C3 (amended): in exact arithmetic, recomputing with structural
fraction `1 / mass_ratio` drives the denominator to exactly 0, so the
`D ≤ 0` guard fires and the corrected call returns the infeasibility
sentinel without ever reaching the division; no division by zero
occurs. -/
theorem C3_exact_breakeven_no_division {K : Type} [LinearOrderedField K]
    (p r : K) (hr : 1 ≤ r) :
    1 - r * find_max_structural_fraction r = 0 ∧
    calculate_total_mass p r (find_max_structural_fraction r) = none := by
  have hr0 : r ≠ 0 := ne_of_gt (lt_of_lt_of_le zero_lt_one hr)
  have hz : 1 - r * find_max_structural_fraction r = 0 := by
    field_simp [find_max_structural_fraction]
  refine ⟨hz, ?_⟩
  simp [calculate_total_mass, hz]

/-- C3 witness for the amended statement: payload 1, mass ratio 3. -/
theorem C3_exact_breakeven_no_division_witness :
    1 - 3 * find_max_structural_fraction (3 : ℚ) = 0 ∧
    calculate_total_mass (1 : ℚ) 3 (find_max_structural_fraction 3) = none :=
  C3_exact_breakeven_no_division 1 3 (by norm_num)

/-- C4: every returned (non-`none`) mass breakdown, and every successful
sizing outcome of the engine, satisfies
`total_mass = structural_mass + fuel_mass + payload_mass`. -/
theorem C4_mass_conservation {K : Type} [LinearOrderedField K]
    (p r sf m0 m_structure m_fuel esf : K) (adjusted : Bool)
    (h : calculate_total_mass p r sf = some (m0, m_structure, m_fuel) ∨
         mainSizing p r sf =
           SizingOutcome.success m0 m_structure m_fuel esf adjusted) :
    m0 = m_structure + m_fuel + p := by
  rcases h with h | h
  · exact total_mass_eq_sum h
  · exact total_mass_eq_sum (mainSizing_success h)

/-- C4 witness: payload 1, mass ratio 2, structural fraction 1/20 gives
the triple `(20/9, 1/9, 10/9)` and indeed `20/9 = 1/9 + 10/9 + 1`. -/
theorem C4_mass_conservation_witness : (20 : ℚ)/9 = 1/9 + 10/9 + 1 :=
  C4_mass_conservation 1 2 (1/20) (20/9) (1/9) (10/9) (1/20) false
    (Or.inl (by norm_num [calculate_total_mass]))

/-- C5: under the documented preconditions and `D > 0`, the three
returned masses are all nonnegative, and algebraically
`fuel_mass = payload_mass * (mass_ratio - 1) / D`. -/
theorem C5_masses_nonneg {K : Type} [LinearOrderedField K]
    (p r sf m0 m_structure m_fuel : K)
    (hp : 0 < p) (hr : 1 ≤ r) (hsf0 : 0 ≤ sf) (hsf1 : sf < 1)
    (hD : 0 < 1 - r * sf)
    (h : calculate_total_mass p r sf = some (m0, m_structure, m_fuel)) :
    0 ≤ m0 ∧ 0 ≤ m_structure ∧ 0 ≤ m_fuel ∧
    m_fuel = p * (r - 1) / (1 - r * sf) := by
  have hcond : ¬ (1 - r * sf ≤ 0) := not_le.mpr hD
  simp only [calculate_total_mass, hcond, if_false, Option.some.injEq,
    Prod.mk.injEq] at h
  obtain ⟨rfl, rfl, rfl⟩ := h
  have hr0 : (0 : K) < r := lt_of_lt_of_le zero_lt_one hr
  have hm0 : 0 ≤ r * p / (1 - r * sf) :=
    div_nonneg (mul_nonneg hr0.le hp.le) hD.le
  have hfuel : r * p / (1 - r * sf) - sf * (r * p / (1 - r * sf)) - p
      = p * (r - 1) / (1 - r * sf) := by
    field_simp
    ring
  refine ⟨hm0, mul_nonneg hsf0 hm0, ?_, hfuel⟩
  rw [hfuel]
  exact div_nonneg (mul_nonneg hp.le (by linarith)) hD.le

/-- C5 witness: payload 1, mass ratio 2, structural fraction 1/20,
triple `(20/9, 1/9, 10/9)`; all nonnegative and
`10/9 = 1 * (2 - 1) / (9/10)`. -/
theorem C5_masses_nonneg_witness :
    (0 : ℚ) ≤ 20/9 ∧ (0 : ℚ) ≤ 1/9 ∧ (0 : ℚ) ≤ 10/9 ∧
    (10 : ℚ)/9 = 1 * (2 - 1) / (1 - 2 * (1/20)) :=
  C5_masses_nonneg 1 2 (1/20) (20/9) (1/9) (10/9)
    (by norm_num) (by norm_num) (by norm_num) (by norm_num) (by norm_num)
    (by norm_num [calculate_total_mass])

/-- C6: the Tsiolkovsky step returns exactly
`(exp (delta_v / (specific_impulse * g0)), specific_impulse * g0)` with
`g0 = 9.81`; for positive inputs the mass ratio is `≥ 1`, strictly
increasing in `delta_v` and strictly decreasing in
`specific_impulse`. -/
theorem C6_tsiolkovsky (dv isp : ℝ) (hdv : 0 < dv) (hisp : 0 < isp) :
    calculate_mass_ratio dv isp =
      (Real.exp (dv / (isp * 9.81)), isp * 9.81) ∧
    1 ≤ (calculate_mass_ratio dv isp).1 ∧
    (∀ dv2, dv < dv2 →
      (calculate_mass_ratio dv isp).1 < (calculate_mass_ratio dv2 isp).1) ∧
    (∀ isp2, isp < isp2 →
      (calculate_mass_ratio dv isp2).1 < (calculate_mass_ratio dv isp).1) := by
  have hve : (0 : ℝ) < isp * 9.81 := by positivity
  refine ⟨rfl, ?_, ?_, ?_⟩
  · show (1 : ℝ) ≤ Real.exp (dv / (isp * 9.81))
    exact Real.one_le_exp (div_pos hdv hve).le
  · intro dv2 hlt
    show Real.exp (dv / (isp * 9.81)) < Real.exp (dv2 / (isp * 9.81))
    exact Real.exp_lt_exp.mpr ((div_lt_div_iff_of_pos_right hve).mpr hlt)
  · intro isp2 hlt
    show Real.exp (dv / (isp2 * 9.81)) < Real.exp (dv / (isp * 9.81))
    refine Real.exp_lt_exp.mpr (div_lt_div_of_pos_left hdv hve ?_)
    nlinarith

/-- C6 witness: at `delta_v = 9500`, `specific_impulse = 350`. -/
theorem C6_tsiolkovsky_witness :
    calculate_mass_ratio 9500 350 =
      (Real.exp (9500 / (350 * 9.81)), 350 * 9.81) ∧
    1 ≤ (calculate_mass_ratio 9500 350).1 ∧
    (∀ dv2, (9500 : ℝ) < dv2 →
      (calculate_mass_ratio 9500 350).1 < (calculate_mass_ratio dv2 350).1) ∧
    (∀ isp2, (350 : ℝ) < isp2 →
      (calculate_mass_ratio 9500 isp2).1 < (calculate_mass_ratio 9500 350).1) :=
  C6_tsiolkovsky 9500 350 (by norm_num) (by norm_num)

/-- Lower bound for `exp` by the compound-interest inequality:
`(1 + x/n)^n ≤ exp x` for `x ≥ 0`. -/
theorem exp_ge_one_add_div_pow (x : ℝ) (hx : 0 ≤ x) (n : ℕ) (hn : 0 < n) :
    (1 + x / n) ^ n ≤ Real.exp x := by
  have hn0 : (n : ℝ) ≠ 0 := Nat.cast_ne_zero.mpr hn.ne'
  have h1 : (0 : ℝ) ≤ 1 + x / n := by positivity
  have h2 : 1 + x / n ≤ Real.exp (x / n) := by
    have := Real.add_one_le_exp (x / n)
    linarith
  calc (1 + x / n) ^ n ≤ Real.exp (x / n) ^ n := pow_le_pow_left₀ h1 h2 n
    _ = Real.exp (n * (x / n)) := (Real.exp_nat_mul _ n).symm
    _ = Real.exp x := by rw [mul_div_cancel₀ x hn0]

/-- Upper bound for `exp`: `exp x ≤ (1 / (1 - x/n))^n` for
`0 ≤ x` with `x/n < 1`. -/
theorem exp_le_inv_one_sub_div_pow (x : ℝ) (hx : 0 ≤ x) (n : ℕ) (hn : 0 < n)
    (hlt : x / n < 1) :
    Real.exp x ≤ (1 / (1 - x / n)) ^ n := by
  have hn0 : (n : ℝ) ≠ 0 := Nat.cast_ne_zero.mpr hn.ne'
  have hpos : (0 : ℝ) < 1 - x / n := by linarith
  have hexp : (0 : ℝ) < Real.exp (x / n) := Real.exp_pos _
  have h2 : Real.exp (x / n) ≤ 1 / (1 - x / n) := by
    have h3 := Real.add_one_le_exp (-(x / n))
    rw [Real.exp_neg] at h3
    have h4 : 1 - x / n ≤ (Real.exp (x / n))⁻¹ := by linarith
    rw [le_div_iff₀ hpos]
    calc Real.exp (x / n) * (1 - x / n)
        ≤ Real.exp (x / n) * (Real.exp (x / n))⁻¹ :=
          mul_le_mul_of_nonneg_left h4 hexp.le
      _ = 1 := mul_inv_cancel₀ hexp.ne'
  calc Real.exp x = Real.exp (n * (x / n)) := by rw [mul_div_cancel₀ x hn0]
    _ = Real.exp (x / n) ^ n := Real.exp_nat_mul _ n
    _ ≤ (1 / (1 - x / n)) ^ n := pow_le_pow_left₀ hexp.le h2 n

/-- Numeric bounds on the Scenario A mass ratio
`exp (9500 / 3433.5) = exp (19000/6867) ≈ 15.91`, via the two
`n = 128` compound-interest bounds. -/
theorem mass_ratio_9500_350_bounds :
    15 < (calculate_mass_ratio 9500 350).1 ∧
    (calculate_mass_ratio 9500 350).1 < 16.5 := by
  have heq : (9500 : ℝ) / (350 * 9.81) = 19000 / 6867 := by norm_num
  have hx0 : (0 : ℝ) ≤ 19000 / 6867 := by norm_num
  have hlow := exp_ge_one_add_div_pow (19000 / 6867) hx0 128 (by norm_num)
  have hhigh := exp_le_inv_one_sub_div_pow (19000 / 6867) hx0 128
    (by norm_num) (by norm_num)
  have h1 : (15 : ℝ) < (1 + (19000 / 6867) / (128 : ℕ)) ^ (128 : ℕ) := by
    norm_num
  have h2 : ((1 : ℝ) / (1 - (19000 / 6867) / (128 : ℕ))) ^ (128 : ℕ) < 16.5 := by
    norm_num
  constructor
  · show (15 : ℝ) < Real.exp (9500 / (350 * 9.81))
    rw [heq]
    linarith
  · show Real.exp (9500 / (350 * 9.81)) < 16.5
    rw [heq]
    linarith

/-- C7 counterexample: Scenario A does NOT give `mass_ratio ≈ 14.15`
with corrected fraction `≈ 0.0707`.  In fact
`exp (9500 / 3433.5) > 15` (it is `≈ 15.91`), so the corrected
fraction `1 / mass_ratio` is below `1/15 < 0.067`. -/
theorem C7_counterexample :
    15 < (calculate_mass_ratio 9500 350).1 ∧
    find_max_structural_fraction (calculate_mass_ratio 9500 350).1
      < 67 / 1000 := by
  obtain ⟨hlow, -⟩ := mass_ratio_9500_350_bounds
  refine ⟨hlow, ?_⟩
  unfold find_max_structural_fraction
  have h15 : 1 / (calculate_mass_ratio 9500 350).1 < 1 / 15 :=
    one_div_lt_one_div_of_lt (by norm_num) hlow
  linarith

/-- C7 (amended): with payload 1 kg, Isp 350 s, delta-v 9500 m/s and
structural fraction 0.10, the engine computes `ve = 3433.5` exactly and
`mass_ratio = exp (9500/3433.5) ≈ 15.91` (strictly between 15 and
16.5); `D = 1 - mass_ratio * 0.10 < 0`, so the mass-breakdown call
signals infeasibility and triggers the auto-correction, whose corrected
fraction is `1 / mass_ratio ≈ 0.063` (strictly between `2/33 ≈ 0.0606`
and `1/15 ≈ 0.0667`). -/
theorem C7_scenario_a :
    (calculate_mass_ratio 9500 350).2 = 3433.5 ∧
    15 < (calculate_mass_ratio 9500 350).1 ∧
    (calculate_mass_ratio 9500 350).1 < 16.5 ∧
    1 - (calculate_mass_ratio 9500 350).1 * 0.10 < 0 ∧
    calculate_total_mass (1 : ℝ) (calculate_mass_ratio 9500 350).1 0.10
      = none ∧
    find_max_structural_fraction (calculate_mass_ratio 9500 350).1
      = 1 / (calculate_mass_ratio 9500 350).1 ∧
    2 / 33 < find_max_structural_fraction (calculate_mass_ratio 9500 350).1 ∧
    find_max_structural_fraction (calculate_mass_ratio 9500 350).1
      < 1 / 15 := by
  obtain ⟨hlow, hhigh⟩ := mass_ratio_9500_350_bounds
  have hve : (calculate_mass_ratio 9500 350).2 = 3433.5 := by
    show (350 : ℝ) * 9.81 = 3433.5
    norm_num
  have hD : 1 - (calculate_mass_ratio 9500 350).1 * 0.10 < 0 := by
    linarith
  have hnone : calculate_total_mass (1 : ℝ)
      (calculate_mass_ratio 9500 350).1 0.10 = none := by
    simp only [calculate_total_mass, if_pos hD.le]
  have hfrac1 : 2 / 33
      < find_max_structural_fraction (calculate_mass_ratio 9500 350).1 := by
    unfold find_max_structural_fraction
    have : (1 : ℝ) / 16.5 < 1 / (calculate_mass_ratio 9500 350).1 :=
      one_div_lt_one_div_of_lt (by linarith) hhigh
    have h233 : (2 : ℝ) / 33 = 1 / 16.5 := by norm_num
    linarith
  have hfrac2 : find_max_structural_fraction (calculate_mass_ratio 9500 350).1
      < 1 / 15 := by
    unfold find_max_structural_fraction
    exact one_div_lt_one_div_of_lt (by norm_num) hlow
  exact ⟨hve, hlow, hhigh, hD, hnone, rfl, hfrac1, hfrac2⟩

/-- Lower and upper numeric bounds for the equatorial rotational boost:
`2π/86400 * 6371000 ≈ 463.31` (solar day 86400 s, mean radius
6371000 m). -/
theorem boost_zero_bounds :
    463.3 < calculate_rotational_boost 0 ∧
    calculate_rotational_boost 0 < 463.4 := by
  have hpi1 := Real.pi_gt_d6
  have hpi2 := Real.pi_lt_d6
  have h0 : calculate_rotational_boost 0
      = 2 * Real.pi / 86400 * 6371000 := by
    show 2 * Real.pi / 86400 * 6371000 * Real.cos (radians 0)
        = 2 * Real.pi / 86400 * 6371000
    have : radians 0 = 0 := by
      unfold radians
      ring
    rw [this, Real.cos_zero, mul_one]
  rw [h0]
  constructor <;> linarith

/-- C8 counterexample: the equatorial boost is NOT `465.1 ± 1` m/s: the
code's constants (solar day 86400 s, mean radius 6371000 m) give
`calculate_rotational_boost 0 < 463.4 < 464.1`. -/
theorem C8_counterexample : calculate_rotational_boost 0 < 464.1 := by
  obtain ⟨-, h⟩ := boost_zero_bounds
  linarith

/-- C8 (amended): for latitude in `[-90, 90]` the rotational boost is an
even function and nonnegative; `calculate_rotational_boost 90 = 0`
exactly, and `calculate_rotational_boost 0 ≈ 463.3` m/s (strictly
between 463.3 and 463.4), not `465.1 ± 1`. -/
theorem C8_rotational_boost_props (lat : ℝ)
    (h1 : -90 ≤ lat) (h2 : lat ≤ 90) :
    calculate_rotational_boost (-lat) = calculate_rotational_boost lat ∧
    0 ≤ calculate_rotational_boost lat ∧
    calculate_rotational_boost 90 = 0 ∧
    463.3 < calculate_rotational_boost 0 ∧
    calculate_rotational_boost 0 < 463.4 := by
  refine ⟨?_, ?_, ?_, boost_zero_bounds.1, boost_zero_bounds.2⟩
  · show 2 * Real.pi / 86400 * 6371000 * Real.cos (radians (-lat))
        = 2 * Real.pi / 86400 * 6371000 * Real.cos (radians lat)
    have hneg : radians (-lat) = -(radians lat) := by
      unfold radians
      ring
    rw [hneg, Real.cos_neg]
  · have hlow : -(Real.pi / 2) ≤ radians lat := by
      unfold radians
      nlinarith [Real.pi_pos]
    have hhigh : radians lat ≤ Real.pi / 2 := by
      unfold radians
      nlinarith [Real.pi_pos]
    have hcos := Real.cos_nonneg_of_mem_Icc (Set.mem_Icc.mpr ⟨hlow, hhigh⟩)
    show 0 ≤ 2 * Real.pi / 86400 * 6371000 * Real.cos (radians lat)
    have homega : (0 : ℝ) ≤ 2 * Real.pi / 86400 * 6371000 := by
      positivity
    exact mul_nonneg homega hcos
  · show 2 * Real.pi / 86400 * 6371000 * Real.cos (radians 90) = 0
    have h90 : radians 90 = Real.pi / 2 := by
      unfold radians
      ring
    rw [h90, Real.cos_pi_div_two, mul_zero]

/-- C8 witness for the amended statement: latitude 45 degrees. -/
theorem C8_rotational_boost_props_witness :
    calculate_rotational_boost (-45) = calculate_rotational_boost 45 ∧
    0 ≤ calculate_rotational_boost 45 ∧
    calculate_rotational_boost 90 = 0 ∧
    463.3 < calculate_rotational_boost 0 ∧
    calculate_rotational_boost 0 < 463.4 :=
  C8_rotational_boost_props 45 (by norm_num) (by norm_num)

/-- C9 counterexample: the calculation core does NOT reject an
out-of-range delta-v budget.  At `delta_v = 10500 ∉ [9300, 10000]`,
`calculate_mass_ratio` returns the ordinary numeric pair
`(exp (10500/3433.5), 3433.5)` with a mass ratio `> 1` — there is no
error outcome in the core. -/
theorem C9_counterexample :
    calculate_mass_ratio 10500 350
      = (Real.exp (10500 / (350 * 9.81)), 350 * 9.81) ∧
    1 < (calculate_mass_ratio 10500 350).1 := by
  refine ⟨rfl, ?_⟩
  show (1 : ℝ) < Real.exp (10500 / (350 * 9.81))
  have hx : (0 : ℝ) < 10500 / (350 * 9.81) := by norm_num
  have h := Real.add_one_le_exp (10500 / (350 * 9.81))
  linarith

/-- C9 (amended): the core performs no delta-v validation:
`calculate_mass_ratio` returns `(exp (dv / (isp * 9.81)), isp * 9.81)`
for every input, and at the out-of-range budgets 10500 m/s and
5000 m/s it still produces a mass ratio `> 1` rather than an error;
only the interactive input boundary enforces `[9300, 10000]`. -/
theorem C9_no_core_validation :
    (∀ dv isp : ℝ, calculate_mass_ratio dv isp
      = (Real.exp (dv / (isp * 9.81)), isp * 9.81)) ∧
    1 < (calculate_mass_ratio 10500 350).1 ∧
    1 < (calculate_mass_ratio 5000 350).1 := by
  refine ⟨fun dv isp => rfl, ?_, ?_⟩
  · show (1 : ℝ) < Real.exp (10500 / (350 * 9.81))
    have hx : (0 : ℝ) < 10500 / (350 * 9.81) := by norm_num
    have h := Real.add_one_le_exp (10500 / (350 * 9.81))
    linarith
  · show (1 : ℝ) < Real.exp (5000 / (350 * 9.81))
    have hx : (0 : ℝ) < 5000 / (350 * 9.81) := by norm_num
    have h := Real.add_one_le_exp (5000 / (350 * 9.81))
    linarith

/-- C10: the rotational boost performs no range validation: every real
latitude yields `omega * R_E * cos(radians(latitude))`, and at the
out-of-range latitude 180 the result is strictly negative
(`cos π = -1`), so the always-positive sign convention holds only on
the documented range `[-90, 90]`. -/
theorem C10_boost_no_validation :
    (∀ lat : ℝ, calculate_rotational_boost lat
      = 2 * Real.pi / 86400 * 6371000 * Real.cos (radians lat)) ∧
    calculate_rotational_boost 180 < 0 := by
  refine ⟨fun lat => rfl, ?_⟩
  show 2 * Real.pi / 86400 * 6371000 * Real.cos (radians 180) < 0
  have h180 : radians 180 = Real.pi := by
    unfold radians
    ring
  rw [h180, Real.cos_pi]
  have hpi := Real.pi_pos
  nlinarith

end RocketCalc
